import Mathlib

/-!
Verification development for the MoniClear personal-finance application.

The TypeScript source is shallowly embedded: JS numbers are modelled as
rationals, arrays as lists, `localStorage` and the Firestore document as
explicit optional values threaded through state-passing functions, and the
fallible remote calls as functions parameterised by an environment flag
saying whether the underlying I/O succeeds.
-/

namespace MoniClear

/-- Expense categories, from `types.ts` (`ExpenseCategory`). -/
inductive ExpenseCategory where
  | Food | Transport | Rent | Entertainment | Shopping | Utilities | Other
deriving DecidableEq

/-- Wishlist priority, from `types.ts` (`WishlistItem.priority`). -/
inductive Priority where
  | Low | Medium | High
deriving DecidableEq

/-- Income history entry, from `types.ts` (`IncomeHistory`). -/
structure IncomeHistory where
  id : String
  amount : ℚ
  date : String
deriving DecidableEq

/-- Bill, from `types.ts` (`Bill`); `isDeposit` is an optional field. -/
structure Bill where
  id : String
  name : String
  amount : ℚ
  dueDate : String
  isPaid : Bool
  isDeposit : Option Bool
deriving DecidableEq

/-- Wishlist item, from `types.ts` (`WishlistItem`); `isPinned` is optional. -/
structure WishlistItem where
  id : String
  name : String
  price : ℚ
  priority : Priority
  isPinned : Option Bool
deriving DecidableEq

/-- Expense, from `types.ts` (`Expense`). -/
structure Expense where
  id : String
  description : String
  amount : ℚ
  category : ExpenseCategory
  date : String
deriving DecidableEq

/-- The per-user financial record, from `types.ts` (`AppData`). -/
structure AppData where
  weeklyEstimate : ℚ
  incomeHistory : List IncomeHistory
  bills : List Bill
  wishlist : List WishlistItem
  expenses : List Expense
deriving DecidableEq

/-- Aggregate from `App.tsx:143`:
`data.incomeHistory.reduce((acc, curr) => acc + curr.amount, 0)`. -/
def totalHistoryIncome (d : AppData) : ℚ :=
  d.incomeHistory.foldl (fun acc curr => acc + curr.amount) 0

/-- Aggregate from `App.tsx:144`:
`data.expenses.reduce((acc, curr) => acc + curr.amount, 0)`. -/
def totalExpenses (d : AppData) : ℚ :=
  d.expenses.foldl (fun acc curr => acc + curr.amount) 0

/-- Aggregate from `App.tsx:145`:
`data.bills.filter(b => !b.isPaid).reduce((acc, curr) => acc + curr.amount, 0)`. -/
def totalUnpaidBills (d : AppData) : ℚ :=
  (d.bills.filter (fun b => !b.isPaid)).foldl (fun acc curr => acc + curr.amount) 0

/-- Aggregate from `App.tsx:146`:
`data.bills.filter(b => b.isPaid).reduce((acc, curr) => acc + curr.amount, 0)`. -/
def totalPaidBills (d : AppData) : ℚ :=
  (d.bills.filter (fun b => b.isPaid)).foldl (fun acc curr => acc + curr.amount) 0

/-- Aggregate from `App.tsx:149`: paid bills marked as deposits; the optional
`isDeposit` field is truthy exactly when it is `some true`. -/
def totalHeldDeposits (d : AppData) : ℚ :=
  (d.bills.filter (fun b => b.isPaid && b.isDeposit.getD false)).foldl
    (fun acc curr => acc + curr.amount) 0

/-- Derived balance from `App.tsx:154`. -/
def confirmedBalance (d : AppData) : ℚ :=
  totalHistoryIncome d - totalExpenses d - totalPaidBills d

/-- Derived balance from `App.tsx:156`. -/
def projectedBalance (d : AppData) : ℚ :=
  confirmedBalance d + d.weeklyEstimate

/-- Derived balance from `App.tsx:158`. -/
def totalNetWorth (d : AppData) : ℚ :=
  confirmedBalance d + totalHeldDeposits d

/-- Pinned wishlist filter from `App.tsx:161`. -/
def pinnedWishlistItems (d : AppData) : List WishlistItem :=
  d.wishlist.filter (fun item => item.isPinned.getD false)

/-- A left fold accumulating `+ f x` over a list computes the starting value
plus the sum of the mapped list. -/
theorem foldl_add_eq_sum {α : Type} (f : α → ℚ) :
    ∀ (l : List α) (a : ℚ),
      l.foldl (fun acc x => acc + f x) a = a + (l.map f).sum := by
  intro l
  induction l with
  | nil => intro a; simp
  | cons x xs ih =>
      intro a
      simp only [List.foldl_cons, List.map_cons, List.sum_cons, ih]
      ring

/-- Permuting the list leaves the additive fold unchanged. -/
theorem foldl_add_perm {α : Type} (f : α → ℚ) {l l' : List α}
    (h : l.Perm l') :
    l.foldl (fun acc x => acc + f x) 0 = l'.foldl (fun acc x => acc + f x) 0 := by
  rw [foldl_add_eq_sum, foldl_add_eq_sum]
  exact congrArg (0 + ·) (List.Perm.sum_eq (List.Perm.map f h))

/-- Does the record have at least one non-empty sequence?  Mirrors the guard
at `firestoreService.ts` (`migrateLocalDataToFirestore`): `existingData.bills.length > 0 || ...`.  `weeklyEstimate` is not inspected. -/
def hasExistingData (d : AppData) : Bool :=
  decide (0 < d.bills.length) || decide (0 < d.expenses.length) ||
    decide (0 < d.wishlist.length) || decide (0 < d.incomeHistory.length)

/-- Combined store state: the guest-local entry (the parsed value behind the
durable key `wealthway_data_v2`, `none` when the key is absent) and the remote
Firestore document (`none` when it does not exist). -/
structure FsState where
  localData : Option AppData
  remoteData : Option AppData
deriving DecidableEq

/-- Environment flags saying whether the remote reads and writes succeed; the
service catches the corresponding exceptions internally. -/
structure FsEnv where
  getOk : Bool
  saveOk : Bool
deriving DecidableEq

/-- The environment in which every remote operation succeeds. -/
def allOk : FsEnv := FsEnv.mk true true

/-- The all-empty default record written by
`FirestoreService.initializeUserData`. -/
def defaultAppData : AppData :=
  AppData.mk 0 [] [] [] []

/-- `FirestoreService.initializeUserData`: writes the default record to the
(absent) remote document and returns it. -/
def initializeUserData (s : FsState) : FsState × AppData :=
  (FsState.mk s.localData (some defaultAppData), defaultAppData)

/-- `FirestoreService.getUserData`: returns the remote document if it exists,
initialises it otherwise; any error in the try block yields `null` with the
state untouched. -/
def getUserData (env : FsEnv) (s : FsState) : FsState × Option AppData :=
  if env.getOk then
    match s.remoteData with
    | some d => (s, some d)
    | none =>
        let r := initializeUserData s
        (r.1, some r.2)
  else (s, none)

/-- `FirestoreService.saveUserData`: overwrites the remote document and
returns `true`; on error it logs and returns `false` (the error is swallowed
inside this function). -/
def saveUserData (env : FsEnv) (d : AppData) (s : FsState) : FsState × Bool :=
  if env.saveOk then (FsState.mk s.localData (some d), true) else (s, false)

/-- `FirestoreService.migrateLocalDataToFirestore` — the reconcile routine.
If the guest-local entry is absent it is a no-op returning `true`.  Otherwise
it reads the remote record; if that record has any non-empty sequence it
returns `true` leaving everything unchanged, else it writes the local record
to the remote document (ignoring the boolean result), removes the local entry
and returns `true`. -/
def migrateLocalDataToFirestore (env : FsEnv) (s : FsState) : FsState × Bool :=
  match s.localData with
  | none => (s, true)
  | some parsedData =>
      let r := getUserData env s
      let keep : Bool :=
        match r.2 with
        | some existingData => hasExistingData existingData
        | none => false
      if keep then
        (r.1, true)
      else
        let r2 := saveUserData env parsedData r.1
        (FsState.mk none r2.1.remoteData, true)

/-- Provider-issued user, with the `emailVerified` flag consumed by
`sendVerificationEmail` in `AuthContext`. -/
structure UserInfo where
  uid : String
  emailVerified : Bool
deriving DecidableEq

/-- Session state of `AuthProvider`: the `user` and `isGuest` React states and
the durable guest key `moniclear_guest_user` in the local store, plus the
transient `loading` flag. -/
structure AuthState where
  user : Option UserInfo
  isGuest : Bool
  guestKeySet : Bool
  loading : Bool
deriving DecidableEq

/-- Error thrown by a failed credential operation (the provider error is
rethrown verbatim by every catch block in `AuthContext`). -/
structure AuthError where
  message : String
deriving DecidableEq

/-- Message of a failed federated sign-in. -/
def googleErrMsg : String := "Google sign-in error"

/-- Message of a failed email sign-in. -/
def emailInErrMsg : String := "Email sign-in error"

/-- Message of a failed email sign-up. -/
def emailUpErrMsg : String := "Email sign-up error"

/-- Message of a failed phone sign-in. -/
def phoneErrMsg : String := "Phone sign-in error"

/-- Message of a failed password reset. -/
def resetErrMsg : String := "Password reset error"

/-- Message of a failed verification-email send. -/
def verifyErrMsg : String := "Email verification error"

/-- `signInWithGoogle` in `AuthContext`: on popup success it clears the guest
flag, removes the durable guest key and (via the `onAuthStateChanged`
listener that the success triggers) installs the signed-in user; on failure it
rethrows, leaving only `loading` reset by the `finally`. -/
def signInWithGoogle (popupOk : Bool) (u : UserInfo) (s : AuthState) :
    AuthState × Except AuthError Unit :=
  if popupOk then
    (AuthState.mk (some u) false false false, Except.ok ())
  else
    (AuthState.mk s.user s.isGuest s.guestKeySet false,
      Except.error (AuthError.mk googleErrMsg))

/-- `signInWithEmail` in `AuthContext`; same structure as the federated
sign-in. -/
def signInWithEmail (credOk : Bool) (u : UserInfo) (s : AuthState) :
    AuthState × Except AuthError Unit :=
  if credOk then
    (AuthState.mk (some u) false false false, Except.ok ())
  else
    (AuthState.mk s.user s.isGuest s.guestKeySet false,
      Except.error (AuthError.mk emailInErrMsg))

/-- `signUpWithEmail` in `AuthContext`: account creation followed by a
verification-email send; a failure of either step rethrows before the guest
flag or key are touched. -/
def signUpWithEmail (createOk sendOk : Bool) (u : UserInfo) (s : AuthState) :
    AuthState × Except AuthError Unit :=
  if createOk then
    if sendOk then
      (AuthState.mk (some u) false false false, Except.ok ())
    else
      (AuthState.mk s.user s.isGuest s.guestKeySet false,
        Except.error (AuthError.mk emailUpErrMsg))
  else
    (AuthState.mk s.user s.isGuest s.guestKeySet false,
      Except.error (AuthError.mk emailUpErrMsg))

/-- `signInWithPhone` in `AuthContext`: after the challenge the code treats
the sign-in as successful; failure rethrows. -/
def signInWithPhone (smsOk : Bool) (u : UserInfo) (s : AuthState) :
    AuthState × Except AuthError Unit :=
  if smsOk then
    (AuthState.mk (some u) false false false, Except.ok ())
  else
    (AuthState.mk s.user s.isGuest s.guestKeySet false,
      Except.error (AuthError.mk phoneErrMsg))

/-- `resetPassword` in `AuthContext`: a pure side-effect request; it touches
no session state and rethrows on failure. -/
def resetPassword (sendOk : Bool) (s : AuthState) :
    AuthState × Except AuthError Unit :=
  if sendOk then (s, Except.ok ())
  else (s, Except.error (AuthError.mk resetErrMsg))

/-- `sendVerificationEmail` in `AuthContext`: sends only when a user is
present and unverified; touches no session state and rethrows on failure. -/
def sendVerificationEmail (sendOk : Bool) (s : AuthState) :
    AuthState × Except AuthError Unit :=
  match s.user with
  | some u =>
      if u.emailVerified then (s, Except.ok ())
      else if sendOk then (s, Except.ok ())
      else (s, Except.error (AuthError.mk verifyErrMsg))
  | none => (s, Except.ok ())

/-- `signInAsGuest` in `AuthContext`: sets the guest flag, clears the user and
writes the durable guest key. -/
def signInAsGuest (_s : AuthState) : AuthState :=
  AuthState.mk none true true false

/-- `logout` in `AuthContext` (success path): clears the user, the guest flag
and the durable guest key. -/
def logout (s : AuthState) : AuthState :=
  AuthState.mk none false false s.loading

/-- Events of the session state machine, at the granularity of one completed
operation of `AuthProvider` (a successful sign-in includes the user delivery
by the `onAuthStateChanged` listener it triggers). -/
inductive AuthEvent where
  | googleSuccess (u : UserInfo)
  | emailSignInSuccess (u : UserInfo)
  | emailSignUpSuccess (u : UserInfo)
  | phoneSuccess (u : UserInfo)
  | credentialFailure
  | guestEntry
  | logoutDone
  | logoutFailed
deriving DecidableEq

/-- One step of the session state machine, mirroring the state writes each
`AuthContext` operation performs. -/
def authStep : AuthEvent → AuthState → AuthState
  | AuthEvent.googleSuccess u, s => (signInWithGoogle true u s).1
  | AuthEvent.emailSignInSuccess u, s => (signInWithEmail true u s).1
  | AuthEvent.emailSignUpSuccess u, s => (signUpWithEmail true true u s).1
  | AuthEvent.phoneSuccess u, s => (signInWithPhone true u s).1
  | AuthEvent.credentialFailure, s =>
      AuthState.mk s.user s.isGuest s.guestKeySet false
  | AuthEvent.guestEntry, s => signInAsGuest s
  | AuthEvent.logoutDone, s => logout s
  | AuthEvent.logoutFailed, s => s

/-- Session states reachable by `AuthProvider`: the mount state
(`useState` defaults with `loading = true`), the two initialisation outcomes
of the mount effect (durable guest key present, or the provider reporting its
cached session), and closure under `authStep`. -/
inductive AuthReachable : AuthState → Prop where
  | boot : AuthReachable (AuthState.mk none false false true)
  | fromGuestKey : AuthReachable (AuthState.mk none true true false)
  | fromCachedSession (u : Option UserInfo) :
      AuthReachable (AuthState.mk u false false false)
  | step (e : AuthEvent) (s : AuthState) :
      AuthReachable s → AuthReachable (authStep e s)

/-- Prefix of the expense description created by `markWishlistAsPurchased`
(`App.tsx:181`). -/
def wishlistDescTag : String := "Wishlist: "

/-- Id prefix of the expense created by `markWishlistAsPurchased`. -/
def purchasedIdTag : String := "purchased-"

/-- `markWishlistAsPurchased` (`App.tsx:174`): drops every wishlist entry
whose id equals the item's id and appends one Shopping expense priced at the
item's price.  The generated id and the current date are impure in the source
and passed as parameters here. -/
def markWishlistAsPurchased (newId today : String) (item : WishlistItem)
    (d : AppData) : AppData :=
  AppData.mk d.weeklyEstimate d.incomeHistory d.bills
    (d.wishlist.filter (fun i => i.id != item.id))
    (d.expenses ++
      [Expense.mk (purchasedIdTag ++ newId)
        (wishlistDescTag ++ item.name) item.price
        ExpenseCategory.Shopping today])

/-- Bill-add handler (`App.tsx:730`): requires a non-empty name and a parsed
amount that is a number (`!isNaN`); the parsed amount is modelled as
`Option ℚ` with `none` for NaN.  No sign check is performed. -/
def addBill (nameVal : String) (amtVal : Option ℚ) (dateVal newId : String)
    (d : AppData) : AppData :=
  match amtVal with
  | some a =>
      if nameVal = "" then d
      else
        AppData.mk d.weeklyEstimate d.incomeHistory
          (d.bills ++ [Bill.mk newId nameVal a dateVal false none])
          d.wishlist d.expenses
  | none => d

/-- Expense-add handler (`App.tsx:777`): requires a non-empty description and
a non-NaN parsed amount; no sign check. -/
def addExpense (descVal : String) (amtVal : Option ℚ)
    (catVal : ExpenseCategory) (today newId : String) (d : AppData) : AppData :=
  match amtVal with
  | some a =>
      if descVal = "" then d
      else
        AppData.mk d.weeklyEstimate d.incomeHistory d.bills d.wishlist
          (d.expenses ++ [Expense.mk newId descVal a catVal today])
  | none => d

/-- Income "Marked Paid" handler (`App.tsx:670`): `amt` is
`parseFloat(incomeInput) || 0`; the entry is appended only when `amt > 0`,
and `weeklyEstimate` is reset to `0`. -/
def addIncomeEntry (amt : ℚ) (newId today : String) (d : AppData) : AppData :=
  if 0 < amt then
    AppData.mk 0 (d.incomeHistory ++ [IncomeHistory.mk newId amt today])
      d.bills d.wishlist d.expenses
  else d

/-- "Save Forecast" handler (`App.tsx:664`): overwrites `weeklyEstimate` with
`parseFloat(incomeInput) || 0`. -/
def setWeeklyEstimate (val : ℚ) (d : AppData) : AppData :=
  AppData.mk val d.incomeHistory d.bills d.wishlist d.expenses

/-- The decimal-point character. -/
def dotChar : Char := '.'

/-- Sanitisation in the wishlist-add handler (`App.tsx:832`):
`p.value.replace(/[^0-9.]/g, '')` keeps only digits and dots. -/
def sanitizePrice (s : String) : List Char :=
  s.toList.filter (fun c => c.isDigit || c = dotChar)

/-- Numeric value of a digit character (codepoint minus 48, the code of the
zero digit). -/
def digitVal (c : Char) : ℚ :=
  ((c.toNat - 48 : ℕ) : ℚ)

/-- Value of the integer-part digits, most significant first. -/
def parseIntPart (l : List Char) : ℚ :=
  l.foldl (fun acc c => acc * 10 + digitVal c) 0

/-- Value of the fraction-part digits (the digits after the first dot). -/
def parseFracPart (l : List Char) : ℚ :=
  l.foldr (fun c acc => (digitVal c + acc) / 10) 0

/-- JS `parseFloat` restricted to strings of digits and dots (the image of
`sanitizePrice`): the longest prefix of the form `digits`, `digits.digits`
or `.digits` is parsed; an empty numeric prefix is NaN (`none`). -/
def parseCleanFloat (cs : List Char) : Option ℚ :=
  let intDigits := cs.takeWhile Char.isDigit
  let rest := cs.drop intDigits.length
  match rest with
  | [] => if intDigits.isEmpty then none else some (parseIntPart intDigits)
  | c :: rest2 =>
      if c = dotChar then
        let fracDigits := rest2.takeWhile Char.isDigit
        if intDigits.isEmpty && fracDigits.isEmpty then none
        else some (parseIntPart intDigits + parseFracPart fracDigits)
      else if intDigits.isEmpty then none
      else some (parseIntPart intDigits)

/-- Wishlist-add handler (`App.tsx:826`): trims the name, strips every
character but digits and dots from the price and parses it; requires a
non-empty name and a non-NaN price. -/
def addWishlistItem (nameRaw priceRaw : String) (newId : String)
    (d : AppData) : AppData :=
  let nameVal := nameRaw.trim
  match parseCleanFloat (sanitizePrice priceRaw) with
  | some cleanPrice =>
      if nameVal = "" then d
      else
        AppData.mk d.weeklyEstimate d.incomeHistory d.bills
          (d.wishlist ++
            [WishlistItem.mk newId nameVal cleanPrice Priority.Medium
              (some false)])
          d.expenses
  | none => d

/-- Non-negativity of every stored monetary amount in a record. -/
def recordNonneg (d : AppData) : Prop :=
  (∀ i ∈ d.incomeHistory, 0 ≤ i.amount) ∧
  (∀ b ∈ d.bills, 0 ≤ b.amount) ∧
  (∀ w ∈ d.wishlist, 0 ≤ w.price) ∧
  (∀ e ∈ d.expenses, 0 ≤ e.amount)

/-- State of the debounced-save effect (`App.tsx:125`): the pending timeout
(holding the record its closure captured) and the remote write calls issued
so far. -/
structure DebounceState where
  pending : Option AppData
  writes : List AppData
deriving DecidableEq

/-- A record mutation inside the debounce window: the effect cleanup clears
the pending timeout and the effect re-run schedules a new one capturing the
latest record. -/
def debounceMutate (r : AppData) (s : DebounceState) : DebounceState :=
  DebounceState.mk (some r) s.writes

/-- The 500ms timer elapsing: the pending timeout fires, issuing one
`saveUserData` call with the record it captured. -/
def debounceFire (s : DebounceState) : DebounceState :=
  match s.pending with
  | some r => DebounceState.mk none (s.writes ++ [r])
  | none => s

/-- A burst of mutations, each arriving before the pending timer fires. -/
def applyMutations (rs : List AppData) (s : DebounceState) : DebounceState :=
  rs.foldl (fun s r => debounceMutate r s) s

/-- The data-persistence effect of `App.tsx:125-134`: the (debounced) write
goes to the remote document and only when an authenticated, non-guest user is
present and loading has finished; no branch writes the guest-local entry. -/
def saveDataEffect (env : FsEnv) (user : Option UserInfo) (isGuest : Bool)
    (isLoadingData : Bool) (d : AppData) (fs : FsState) : FsState :=
  if user.isSome && !isGuest && !isLoadingData then
    (saveUserData env d fs).1
  else fs

/-- A failed credential operation rethrows and leaves `user`, `isGuest` and
the durable guest key exactly as they were before the call. -/
def failsAtomically (s : AuthState) (r : AuthState × Except AuthError Unit) :
    Prop :=
  (∃ err, r.2 = Except.error err) ∧ r.1.user = s.user ∧
    r.1.isGuest = s.isGuest ∧ r.1.guestKeySet = s.guestKeySet

/-- C2: for every record the identities
`confirmedBalance = totalHistoryIncome - totalExpenses - totalPaidBills` and
`totalNetWorth = confirmedBalance + totalHeldDeposits` hold, and both derived
balances are invariant under any permutation of the `incomeHistory`,
`expenses` and `bills` sequences. -/
theorem aggregate_identities_perm_invariant (R R' : AppData)
    (hI : R'.incomeHistory.Perm R.incomeHistory)
    (hE : R'.expenses.Perm R.expenses)
    (hB : R'.bills.Perm R.bills) :
    confirmedBalance R =
        totalHistoryIncome R - totalExpenses R - totalPaidBills R ∧
    totalNetWorth R = confirmedBalance R + totalHeldDeposits R ∧
    confirmedBalance R' = confirmedBalance R ∧
    totalNetWorth R' = totalNetWorth R := by
  have hIncome : totalHistoryIncome R' = totalHistoryIncome R :=
    foldl_add_perm _ hI
  have hExp : totalExpenses R' = totalExpenses R := foldl_add_perm _ hE
  have hPaid : totalPaidBills R' = totalPaidBills R :=
    foldl_add_perm _ (hB.filter _)
  have hDep : totalHeldDeposits R' = totalHeldDeposits R :=
    foldl_add_perm _ (hB.filter _)
  refine ⟨rfl, rfl, ?_, ?_⟩ <;>
    simp [confirmedBalance, totalNetWorth, hIncome, hExp, hPaid, hDep]

/-- Witness for C2 at a concrete record and a swap of its two income
entries. -/
theorem aggregate_identities_perm_invariant_witness :
    confirmedBalance
        (AppData.mk 0
          [IncomeHistory.mk "i2" 7 "d2", IncomeHistory.mk "i1" 5 "d1"]
          [] [] []) =
      confirmedBalance
        (AppData.mk 0
          [IncomeHistory.mk "i1" 5 "d1", IncomeHistory.mk "i2" 7 "d2"]
          [] [] []) :=
  (aggregate_identities_perm_invariant
    (AppData.mk 0
      [IncomeHistory.mk "i1" 5 "d1", IncomeHistory.mk "i2" 7 "d2"] [] [] [])
    (AppData.mk 0
      [IncomeHistory.mk "i2" 7 "d2", IncomeHistory.mk "i1" 5 "d1"] [] [] [])
    (List.Perm.swap _ _ _) (List.Perm.refl _) (List.Perm.refl _)).2.2.1

/-- C4: marking a wishlist item purchased removes every wishlist entry with
the item's id (and no other entry), appends exactly one expense whose amount
is the item's price, whose category is Shopping and whose description
contains the item's name, and leaves bills, income history and the weekly
estimate unchanged. -/
theorem markWishlistAsPurchased_transition (newId today : String)
    (W : WishlistItem) (d : AppData) :
    (∀ i ∈ (markWishlistAsPurchased newId today W d).wishlist, i.id ≠ W.id) ∧
    (∀ i ∈ d.wishlist,
      i.id ≠ W.id → i ∈ (markWishlistAsPurchased newId today W d).wishlist) ∧
    (∃ e : Expense,
      (markWishlistAsPurchased newId today W d).expenses = d.expenses ++ [e] ∧
      e.amount = W.price ∧ e.category = ExpenseCategory.Shopping ∧
      ∃ pre post : String, e.description = pre ++ W.name ++ post) ∧
    (markWishlistAsPurchased newId today W d).bills = d.bills ∧
    (markWishlistAsPurchased newId today W d).incomeHistory =
      d.incomeHistory ∧
    (markWishlistAsPurchased newId today W d).weeklyEstimate =
      d.weeklyEstimate := by
  refine ⟨?_, ?_, ?_, rfl, rfl, rfl⟩
  · intro i hi
    simp only [markWishlistAsPurchased, List.mem_filter, bne_iff_ne,
      ne_eq] at hi
    exact hi.2
  · intro i hi hne
    simp only [markWishlistAsPurchased, List.mem_filter, bne_iff_ne, ne_eq]
    exact ⟨hi, hne⟩
  · refine ⟨_, rfl, rfl, rfl, wishlistDescTag, "", ?_⟩
    simp

/-- C7: a burst of `N ≥ 1` record mutations inside one 500ms debounce window
(modelled as `rs ++ [r]`, each mutation clearing the pending timeout) issues,
once the timer fires, exactly one remote write, and the record written is the
state after the last mutation. -/
theorem debounce_coalesces_to_last_write (rs : List AppData) (r : AppData) :
    (debounceFire
        (applyMutations (rs ++ [r]) (DebounceState.mk none []))).writes =
      [r] ∧
    (debounceFire
        (applyMutations (rs ++ [r]) (DebounceState.mk none []))).writes.length
      = 1 := by
  have hmain : ∀ (l : List AppData) (x : AppData) (s : DebounceState),
      applyMutations (l ++ [x]) s = DebounceState.mk (some x) s.writes := by
    intro l
    induction l with
    | nil => intro x s; rfl
    | cons y ys ih => intro x s; exact ih x (debounceMutate y s)
  rw [hmain]
  simp [debounceFire]

/-- C3 context: the data-persistence effect never writes the guest-local
entry.  In a guest session (no provider user, guest flag set) the effect
leaves the whole store state — including the guest-local entry — unchanged,
for any environment and any loading flag; for an authenticated user it
overwrites only the remote document. -/
theorem saveDataEffect_guest_never_persists (env : FsEnv) (d : AppData)
    (fs : FsState) (u : UserInfo) (loadingFlag : Bool) :
    saveDataEffect env none true loadingFlag d fs = fs ∧
    saveDataEffect allOk (some u) false false d fs =
      FsState.mk fs.localData (some d) := by
  constructor
  · simp [saveDataEffect]
  · simp [saveDataEffect, saveUserData, allOk]

/-- Sample non-empty remote record used by the witnesses. -/
def sampleRemote : AppData :=
  AppData.mk 0 [] [Bill.mk "rb1" "Rent" 50 "2024-01-01" false none] [] []

/-- Sample guest-local record used by the witnesses. -/
def sampleLocal : AppData :=
  AppData.mk 0 [] [Bill.mk "b1" "Gym" 20 "2024-02-01" false none] [] []

/-- C1: the reconcile merge rule, for a present guest-local record and a
present remote record, in the environment where remote I/O succeeds.  If the
remote record has a non-empty sequence, reconcile returns `true` and leaves
both the remote document and the guest-local entry untouched; otherwise the
local record becomes the remote document, the local entry is removed, and
reconcile returns `true`. -/
theorem reconcile_merge_rule (s : FsState) (L R : AppData)
    (hL : s.localData = some L) (hR : s.remoteData = some R) :
    (hasExistingData R = true →
      migrateLocalDataToFirestore allOk s = (s, true)) ∧
    (hasExistingData R = false →
      migrateLocalDataToFirestore allOk s = (FsState.mk none (some L), true)) := by
  obtain ⟨sl, sr⟩ := s
  simp only at hL hR
  subst hL
  subst hR
  constructor
  · intro h
    simp [migrateLocalDataToFirestore, getUserData, allOk, h]
  · intro h
    simp [migrateLocalDataToFirestore, getUserData, saveUserData, allOk, h]

/-- Witness for C1: both branches of the merge rule evaluated at concrete
stores. -/
theorem reconcile_merge_rule_witness :
    migrateLocalDataToFirestore allOk
        (FsState.mk (some sampleLocal) (some sampleRemote)) =
      (FsState.mk (some sampleLocal) (some sampleRemote), true) ∧
    migrateLocalDataToFirestore allOk
        (FsState.mk (some sampleLocal) (some defaultAppData)) =
      (FsState.mk none (some sampleLocal), true) :=
  ⟨(reconcile_merge_rule (FsState.mk (some sampleLocal) (some sampleRemote))
      sampleLocal sampleRemote rfl rfl).1 (by decide),
   (reconcile_merge_rule (FsState.mk (some sampleLocal) (some defaultAppData))
      sampleLocal defaultAppData rfl rfl).2 (by decide)⟩

/-- C5: reconcile is a no-op reporting success when the guest-local entry is
absent, and running reconcile twice in a row (same environment, no
intervening mutation) leaves the store — in particular the remote record — in
exactly the state a single run produces. -/
theorem reconcile_idempotent (env : FsEnv) (s : FsState) :
    (s.localData = none → migrateLocalDataToFirestore env s = (s, true)) ∧
    migrateLocalDataToFirestore env (migrateLocalDataToFirestore env s).1 =
      ((migrateLocalDataToFirestore env s).1, true) := by
  obtain ⟨sl, sr⟩ := s
  constructor
  · intro h
    simp only at h
    subst h
    rfl
  · cases sl with
    | none => rfl
    | some L =>
        cases hg : env.getOk with
        | false =>
            cases hs : env.saveOk <;>
              simp [migrateLocalDataToFirestore, getUserData, saveUserData,
                hg, hs]
        | true =>
            cases sr with
            | none =>
                cases hs : env.saveOk <;>
                  simp [migrateLocalDataToFirestore, getUserData,
                    initializeUserData, saveUserData, hasExistingData,
                    defaultAppData, hg, hs]
            | some R =>
                cases hk : hasExistingData R with
                | true =>
                    simp [migrateLocalDataToFirestore, getUserData, hg, hk]
                | false =>
                    cases hs : env.saveOk <;>
                      simp [migrateLocalDataToFirestore, getUserData,
                        saveUserData, hg, hk, hs]

/-- Witness for C5 at a concrete store with an absent local entry. -/
theorem reconcile_idempotent_witness :
    migrateLocalDataToFirestore allOk (FsState.mk none (some sampleRemote)) =
      (FsState.mk none (some sampleRemote), true) :=
  (reconcile_idempotent allOk (FsState.mk none (some sampleRemote))).1 rfl

/-- C10: on the empty-remote branch, a failing remote save is swallowed:
`saveUserData` returns `false`, yet reconcile still removes the guest-local
entry and returns `true`, leaving the remote document without the local data
that was just deleted. -/
theorem reconcile_swallows_save_failure (s : FsState) (L R : AppData)
    (hL : s.localData = some L) (hR : s.remoteData = some R)
    (hEmpty : hasExistingData R = false) :
    migrateLocalDataToFirestore (FsEnv.mk true false) s =
      (FsState.mk none (some R), true) ∧
    (saveUserData (FsEnv.mk true false) L s).2 = false := by
  obtain ⟨sl, sr⟩ := s
  simp only at hL hR
  subst hL
  subst hR
  constructor
  · simp [migrateLocalDataToFirestore, getUserData, saveUserData, hEmpty]
  · simp [saveUserData]

/-- Witness for C10 at a concrete store whose remote record is the all-empty
default. -/
theorem reconcile_swallows_save_failure_witness :
    migrateLocalDataToFirestore (FsEnv.mk true false)
        (FsState.mk (some sampleLocal) (some defaultAppData)) =
      (FsState.mk none (some defaultAppData), true) :=
  (reconcile_swallows_save_failure
    (FsState.mk (some sampleLocal) (some defaultAppData))
    sampleLocal defaultAppData rfl rfl (by decide)).1

/-- A digit character's numeric value is non-negative. -/
theorem digitVal_nonneg (c : Char) : 0 ≤ digitVal c := by
  unfold digitVal
  exact_mod_cast Nat.zero_le _

/-- The integer part parsed from digit characters is non-negative. -/
theorem parseIntPart_nonneg (l : List Char) : 0 ≤ parseIntPart l := by
  unfold parseIntPart
  suffices h : ∀ a : ℚ, 0 ≤ a →
      0 ≤ l.foldl (fun acc c => acc * 10 + digitVal c) a from h 0 le_rfl
  induction l with
  | nil => intro a ha; simpa using ha
  | cons c cs ih =>
      intro a ha
      simp only [List.foldl_cons]
      exact ih _ (add_nonneg (mul_nonneg ha (by norm_num)) (digitVal_nonneg c))

/-- The fraction part parsed from digit characters is non-negative. -/
theorem parseFracPart_nonneg (l : List Char) : 0 ≤ parseFracPart l := by
  unfold parseFracPart
  induction l with
  | nil => simp
  | cons c cs ih =>
      simp only [List.foldr_cons]
      exact div_nonneg (add_nonneg (digitVal_nonneg c) ih) (by norm_num)

/-- Whatever number the sanitised-price parser returns is non-negative. -/
theorem parseCleanFloat_nonneg (cs : List Char) (q : ℚ)
    (h : parseCleanFloat cs = some q) : 0 ≤ q := by
  unfold parseCleanFloat at h
  simp only [] at h
  split at h
  · split at h
    · exact absurd h (by simp)
    · obtain rfl : parseIntPart _ = q := Option.some.inj h
      exact parseIntPart_nonneg _
  · split at h
    · split at h
      · exact absurd h (by simp)
      · obtain rfl := Option.some.inj h
        exact add_nonneg (parseIntPart_nonneg _) (parseFracPart_nonneg _)
    · split at h
      · exact absurd h (by simp)
      · obtain rfl := Option.some.inj h
        exact parseIntPart_nonneg _

/-- C6 counterexample: adding a bill whose input parses to `-5` (the handler
only rejects NaN, never negative numbers) produces a record with a negative
stored amount, refuting the claim that every user mutation keeps all amount
and price fields non-negative. -/
theorem nonneg_amounts_counterexample :
    ∃ b ∈ (addBill "Rent" (some (-5 : ℚ)) "2024-01-01" "b1"
        defaultAppData).bills, b.amount < 0 := by
  refine ⟨Bill.mk "b1" "Rent" (-5) "2024-01-01" false none, ?_, by norm_num⟩
  simp [addBill, defaultAppData]

/-- C6 amended: the all-empty default record has every sequence empty and
`weeklyEstimate = 0`; adding an income entry or a wishlist item always keeps
every stored amount non-negative (income requires a strictly positive amount,
the wishlist price is parsed from a minus-stripped string); adding a bill or
an expense preserves non-negativity only under the extra hypothesis that the
parsed amount is non-negative, since those handlers reject only NaN. -/
theorem nonneg_amounts_amended (d : AppData) (hd : recordNonneg d)
    (name date nid nameRaw priceRaw : String) (cat : ExpenseCategory)
    (amt : ℚ) (hamt : 0 ≤ amt) (anyAmt : ℚ) :
    (defaultAppData.weeklyEstimate = 0 ∧ defaultAppData.incomeHistory = [] ∧
      defaultAppData.bills = [] ∧ defaultAppData.wishlist = [] ∧
      defaultAppData.expenses = []) ∧
    recordNonneg (addIncomeEntry anyAmt nid date d) ∧
    recordNonneg (addWishlistItem nameRaw priceRaw nid d) ∧
    recordNonneg (addBill name (some amt) date nid d) ∧
    recordNonneg (addExpense name (some amt) cat date nid d) := by
  obtain ⟨hInc, hBill, hWish, hExp⟩ := hd
  refine ⟨⟨rfl, rfl, rfl, rfl, rfl⟩, ?_, ?_, ?_, ?_⟩
  · unfold addIncomeEntry
    split
    · rename_i hpos
      refine ⟨?_, hBill, hWish, hExp⟩
      intro i hi
      rcases List.mem_append.mp hi with hmem | hmem
      · exact hInc i hmem
      · simp only [List.mem_singleton] at hmem
        subst hmem
        exact le_of_lt hpos
    · exact ⟨hInc, hBill, hWish, hExp⟩
  · unfold addWishlistItem
    cases hp : parseCleanFloat (sanitizePrice priceRaw) with
    | none => exact ⟨hInc, hBill, hWish, hExp⟩
    | some p =>
        simp only
        split
        · exact ⟨hInc, hBill, hWish, hExp⟩
        · refine ⟨hInc, hBill, ?_, hExp⟩
          intro w hw
          rcases List.mem_append.mp hw with hmem | hmem
          · exact hWish w hmem
          · simp only [List.mem_singleton] at hmem
            subst hmem
            exact parseCleanFloat_nonneg _ _ hp
  · unfold addBill
    simp only
    split
    · exact ⟨hInc, hBill, hWish, hExp⟩
    · refine ⟨hInc, ?_, hWish, hExp⟩
      intro b hb
      rcases List.mem_append.mp hb with hmem | hmem
      · exact hBill b hmem
      · simp only [List.mem_singleton] at hmem
        subst hmem
        exact hamt
  · unfold addExpense
    simp only
    split
    · exact ⟨hInc, hBill, hWish, hExp⟩
    · refine ⟨hInc, hBill, hWish, ?_⟩
      intro e he
      rcases List.mem_append.mp he with hmem | hmem
      · exact hExp e hmem
      · simp only [List.mem_singleton] at hmem
        subst hmem
        exact hamt

/-- Witness for the amended C6 at the default record and concrete inputs. -/
theorem nonneg_amounts_amended_witness :
    recordNonneg (addBill "Rent" (some (5 : ℚ)) "2024-01-01" "b1"
      defaultAppData) :=
  (nonneg_amounts_amended defaultAppData
    (by simp [recordNonneg, defaultAppData])
    "Rent" "2024-01-01" "b1" "Bike" "12.5" ExpenseCategory.Food
    5 (by norm_num) 3).2.2.2.1

/-- C8: guest and authenticated session states are mutually exclusive.
Every successful sign-in transition leaves the guest flag false and the
durable guest key removed; every event other than explicit guest re-entry
preserves a false guest flag; and no reachable session state has a provider
user together with the guest flag set. -/
theorem guest_auth_mutual_exclusion :
    (∀ (u : UserInfo) (s : AuthState),
      ((authStep (AuthEvent.googleSuccess u) s).isGuest = false ∧
        (authStep (AuthEvent.googleSuccess u) s).guestKeySet = false) ∧
      ((authStep (AuthEvent.emailSignInSuccess u) s).isGuest = false ∧
        (authStep (AuthEvent.emailSignInSuccess u) s).guestKeySet = false) ∧
      ((authStep (AuthEvent.emailSignUpSuccess u) s).isGuest = false ∧
        (authStep (AuthEvent.emailSignUpSuccess u) s).guestKeySet = false) ∧
      ((authStep (AuthEvent.phoneSuccess u) s).isGuest = false ∧
        (authStep (AuthEvent.phoneSuccess u) s).guestKeySet = false)) ∧
    (∀ (e : AuthEvent) (s : AuthState), e ≠ AuthEvent.guestEntry →
      s.isGuest = false → (authStep e s).isGuest = false) ∧
    (∀ s : AuthState, AuthReachable s →
      ¬(s.user.isSome = true ∧ s.isGuest = true)) := by
  refine ⟨?_, ?_, ?_⟩
  · intro u s
    simp [authStep, signInWithGoogle, signInWithEmail, signUpWithEmail,
      signInWithPhone]
  · intro e s hne hs
    cases e <;>
      simp_all [authStep, signInWithGoogle, signInWithEmail, signUpWithEmail,
        signInWithPhone, signInAsGuest, logout]
  · intro s hs
    induction hs with
    | boot => simp
    | fromGuestKey => simp
    | fromCachedSession u => simp
    | step e s hs ih =>
        cases e <;>
          simp_all [authStep, signInWithGoogle, signInWithEmail,
            signUpWithEmail, signInWithPhone, signInAsGuest, logout]

/-- Witness for C8: the guest flag stays false across a failed credential
operation, and the guest-initialised state never combines a user with the
guest flag. -/
theorem guest_auth_mutual_exclusion_witness :
    (authStep AuthEvent.credentialFailure
        (AuthState.mk none false false false)).isGuest = false ∧
    ¬((AuthState.mk none true true false).user.isSome = true ∧
        (AuthState.mk none true true false).isGuest = true) :=
  ⟨guest_auth_mutual_exclusion.2.1 AuthEvent.credentialFailure
      (AuthState.mk none false false false) (by decide) rfl,
    guest_auth_mutual_exclusion.2.2 (AuthState.mk none true true false)
      AuthReachable.fromGuestKey⟩

/-- C9: every credential operation — federated sign-in, email sign-in,
email sign-up (either step failing), phone sign-in, password reset and
verification-email send — reports failure by returning an error to the
caller and leaves `user`, `isGuest` and the durable guest key exactly as
they were (no partial transition). -/
theorem credential_failure_atomicity (s : AuthState) (u : UserInfo)
    (b : Bool) :
    failsAtomically s (signInWithGoogle false u s) ∧
    failsAtomically s (signInWithEmail false u s) ∧
    failsAtomically s (signUpWithEmail false b u s) ∧
    failsAtomically s (signUpWithEmail true false u s) ∧
    failsAtomically s (signInWithPhone false u s) ∧
    failsAtomically s (resetPassword false s) ∧
    (s.user = some u → u.emailVerified = false →
      failsAtomically s (sendVerificationEmail false s)) := by
  refine ⟨?_, ?_, ?_, ?_, ?_, ?_, ?_⟩
  · exact ⟨⟨_, rfl⟩, rfl, rfl, rfl⟩
  · exact ⟨⟨_, rfl⟩, rfl, rfl, rfl⟩
  · exact ⟨⟨_, rfl⟩, rfl, rfl, rfl⟩
  · exact ⟨⟨_, rfl⟩, rfl, rfl, rfl⟩
  · exact ⟨⟨_, rfl⟩, rfl, rfl, rfl⟩
  · exact ⟨⟨_, rfl⟩, rfl, rfl, rfl⟩
  · intro hu hv
    refine ⟨⟨AuthError.mk verifyErrMsg, ?_⟩, ?_, ?_, ?_⟩ <;>
      simp [sendVerificationEmail, hu, hv]

/-- Witness for C9 at a concrete session holding an unverified user. -/
theorem credential_failure_atomicity_witness :
    failsAtomically (AuthState.mk (some (UserInfo.mk "u1" false)) false false
        false)
      (sendVerificationEmail false
        (AuthState.mk (some (UserInfo.mk "u1" false)) false false false)) :=
  (credential_failure_atomicity
    (AuthState.mk (some (UserInfo.mk "u1" false)) false false false)
    (UserInfo.mk "u1" false) true).2.2.2.2.2.2 rfl rfl

end MoniClear
